import Mathlib

/-!
# Mushcord Installer: GUI handlers (`gui.go`) and platform constants (`constants.go`)

A shallow embedding of the decision logic of the installer's presentation layer.

* Go package-level variables of `gui.go` become the fields of `GuiState`.
* Every effect a handler has on the outside world (a call into the `giu` toolkit or into a
  function of the installer that lives in another file) is appended to `GuiState.trace`.
* Functions whose bodies are not part of the two files (`ParseDiscord`, `CheckScuffedInstall`,
  `di.patch`, ...) are fields of `Env`.  Each such oracle receives the trace recorded so far, so
  that its answer may depend on everything that happened before the call.
* A Go run-time panic (index out of range, nil dereference) is the `Outcome.panic` result.
-/

namespace Mushcord

/-! ## Data model -/

/-- The fields of `DiscordInstall` that `gui.go` reads (`d.path`, `d.branch`, `d.isPatched`). -/
structure DiscordInstall where
  path : String
  branch : String
  isPatched : Bool
deriving DecidableEq, Repr

/-- A Go `error` value as far as `gui.go` observes it: the result of
`errors.Is(err, os.ErrPermission)` and the result of `err.Error()`. -/
structure GoError where
  isPermission : Bool
  text : String
deriving DecidableEq, Repr

/-- Observable effects of the handlers, in program order. -/
inductive Event where
  | OpenPopup (id : String)
  | CloseCurrentPopup
  | OpenURL (url : String)
  | Update
  | ParseDiscord (dir branch : String)
  | CheckScuffedInstall
  | patch (di : DiscordInstall)
  | unpatch (di : DiscordInstall)
  | IsOpenAsar (receiver : Option DiscordInstall)
  | InstallOpenAsar (di : DiscordInstall)
  | UninstallOpenAsar (di : DiscordInstall)
  | installLatestBuilds
  | UpdateSelf
  | RelaunchSelf
  | GetInstallerDownloadLink
  | ReadDir (dir : String)
deriving DecidableEq, Repr

/-- Everything `gui.go` uses but does not define.  The `List Event` argument of an oracle is the
trace at the moment of the call. -/
structure Env where
  /-- The constant `runtime.GOOS`. -/
  GOOS : String
  /-- The package variable `IsDevInstall`. -/
  IsDevInstall : Bool
  ParseDiscord : List Event → String → String → Option DiscordInstall
  CheckScuffedInstall : List Event → Bool
  patch : List Event → DiscordInstall → Option GoError
  unpatch : List Event → DiscordInstall → Option GoError
  /-- The method `(*DiscordInstall).IsOpenAsar`; the receiver may be `nil` (`none`), and the
  answer `none` stands for a run-time panic inside the method body. -/
  IsOpenAsar : List Event → Option DiscordInstall → Option Bool
  InstallOpenAsar : List Event → DiscordInstall → Option GoError
  UninstallOpenAsar : List Event → DiscordInstall → Option GoError
  installLatestBuilds : List Event → Option GoError
  UpdateSelf : List Event → Option GoError
  RelaunchSelf : List Event → Option GoError
  GetInstallerDownloadLink : List Event → String
  /-- The call `os.ReadDir(dir)`: the entry names, or `none` when it returns an error. -/
  ReadDir : List Event → String → Option (List String)
  /-- The functions `filepath.Dir` and `filepath.Base`. -/
  pathDir : String → String
  pathBase : String → String
  /-- The rune mapping `unicode.ToLower`. -/
  unicodeToLower : Char → Char

/-- The package-level variables of `gui.go`, plus the trace of effects. -/
structure GuiState where
  /-- The slice `discords`; its elements are the non-nil `*DiscordInstall` values that
  `FindDiscords` collected. -/
  discords : List DiscordInstall
  radioIdx : Int
  customChoiceIdx : Int
  customDir : String
  autoCompleteDir : String
  autoCompleteFile : String
  autoCompleteCandidates : List String
  autoCompleteIdx : Int
  lastAutoComplete : String
  didAutoComplete : Bool
  modalId : Int
  modalTitle : String
  modalMessage : String
  acceptedOpenAsar : Bool
  showedUpdatePrompt : Bool
  trace : List Event
deriving DecidableEq, Repr

/-- Result of running a handler: normal return with a value, or a Go panic.  The state reached
is kept in both cases. -/
inductive Outcome (α : Type) where
  | ok (val : α) (s : GuiState)
  | panic (s : GuiState)
deriving DecidableEq, Repr

/-- State reached by a run. -/
def Outcome.state {α : Type} : Outcome α → GuiState
  | .ok _ s => s
  | .panic s => s

/-- Value returned by a run, if it returned. -/
def Outcome.val? {α : Type} : Outcome α → Option α
  | .ok a _ => some a
  | .panic _ => none

/-- Handlers are state transformers that may panic. -/
def Gui (α : Type) : Type := GuiState → Outcome α

/-- Return a value without touching the state. -/
def Gui.pure {α : Type} (a : α) : Gui α := fun s => .ok a s

/-- Sequencing; a panic aborts the rest. -/
def Gui.bind {α β : Type} (m : Gui α) (f : α → Gui β) : Gui β := fun s =>
  match m s with
  | .ok a s1 => f a s1
  | .panic s1 => .panic s1

instance : Monad Gui where
  pure := Gui.pure
  bind := Gui.bind

/-- Read the package variables. -/
def Gui.get : Gui GuiState := fun s => .ok s s

/-- Overwrite package variables. -/
def Gui.modify (f : GuiState → GuiState) : Gui Unit := fun s => .ok () (f s)

/-- A Go run-time panic. -/
def Gui.panic {α : Type} : Gui α := fun s => .panic s

/-- Append one event to the trace. -/
def Gui.emit (e : Event) : Gui Unit := fun s => .ok () { s with trace := s.trace ++ [e] }

/-- Call an oracle: its answer is computed from the trace so far, then the call is recorded. -/
def Gui.call {α : Type} (e : Event) (answer : List Event → α) : Gui α := fun s =>
  .ok (answer s.trace) { s with trace := s.trace ++ [e] }

/-! ## Go library functions

Go strings are modelled as Lean strings, that is, as sequences of runes. -/

/-- Go `strings.HasPrefix`. -/
def HasPrefix (s pre : String) : Bool := pre.data.isPrefixOf s.data

/-- Go `strings.HasSuffix`. -/
def HasSuffix (s suf : String) : Bool := suf.data.isSuffixOf s.data

/-- Go `strings.ToLower`: every rune is mapped through `unicode.ToLower`. -/
def ToLower (unicodeToLower : Char → Char) (s : String) : String :=
  ⟨s.data.map unicodeToLower⟩

/-- Go `int` arithmetic result, wrapped to the signed 64-bit range (`int` on a 64-bit
platform). -/
def wrapInt (n : Int) : Int := (n + 2 ^ 63) % 2 ^ 64 - 2 ^ 63

/-- Go `strconv.Itoa`. -/
def Itoa (n : Int) : String := toString n

/-! ## `giu` toolkit calls -/

namespace g

/-- Toolkit call `g.OpenPopup(id)`. -/
def OpenPopup (id : String) : Gui Unit := Gui.emit (.OpenPopup id)

/-- Toolkit call `g.CloseCurrentPopup()`. -/
def CloseCurrentPopup : Gui Unit := Gui.emit .CloseCurrentPopup

/-- Toolkit call `g.OpenURL(url)`. -/
def OpenURL (url : String) : Gui Unit := Gui.emit (.OpenURL url)

/-- Toolkit call `g.Update()`. -/
def Update : Gui Unit := Gui.emit .Update

end g

/-! ## `constants.go` -/

/-- The variable `LinuxDiscordNames`. -/
def LinuxDiscordNames : List String := [
  "Discord", "DiscordPTB", "DiscordCanary", "DiscordDevelopment",
  "discord", "discordptb", "discordcanary", "discorddevelopment",
  "discord-ptb", "discord-canary", "discord-development",
  "com.discordapp.Discord", "com.discordapp.DiscordPTB",
  "com.discordapp.DiscordCanary", "com.discordapp.DiscordDevelopment"]

/-! ## `gui.go` -/

/-- The state after `main` has run `discords = FindDiscords()` and
`customChoiceIdx = len(discords)`; every other variable has its declared initial value. -/
def mainInit (found : List DiscordInstall) : GuiState where
  discords := found
  radioIdx := 0
  customChoiceIdx := (found.length : Int)
  customDir := ""
  autoCompleteDir := ""
  autoCompleteFile := ""
  autoCompleteCandidates := []
  autoCompleteIdx := 0
  lastAutoComplete := ""
  didAutoComplete := false
  modalId := 0
  modalTitle := "Oh Non :("
  modalMessage := "Vous ne devriez jamais voir ce message"
  acceptedOpenAsar := false
  showedUpdatePrompt := false
  trace := []

/-- The index expression `discords[i]`: panics unless `0 <= i < len(discords)`. -/
def indexDiscords (i : Int) : Gui DiscordInstall := fun s =>
  if 0 ≤ i then
    match s.discords[i.toNat]? with
    | some d => .ok d s
    | none => .panic s
  else .panic s

/-- Function `getChosenInstall`. -/
def getChosenInstall (env : Env) : Gui (Option DiscordInstall) := do
  let s ← Gui.get
  if s.radioIdx = s.customChoiceIdx then
    let choice ← Gui.call (.ParseDiscord s.customDir "") (fun t => env.ParseDiscord t s.customDir "")
    if choice = none then
      g.OpenPopup "#invalid-custom-location"
    return choice
  else
    let d ← indexDiscords s.radioIdx
    return some d

/-- Function `ShowModal`. -/
def ShowModal (title desc : String) : Gui Unit := do
  Gui.modify fun s => { s with modalTitle := title }
  Gui.modify fun s => { s with modalMessage := desc }
  Gui.modify fun s => { s with modalId := wrapInt (s.modalId + 1) }
  let s ← Gui.get
  g.OpenPopup ("#modal" ++ Itoa s.modalId)

/-- Function `handleErr`. -/
def handleErr (env : Env) (di : DiscordInstall) (err : GoError) (action : String) : Gui Unit := do
  let err : GoError :=
    if err.isPermission then
      if env.GOOS = "windows" then
        ⟨false, "Permission refusée. Assurez-vous que Discord est totalement fermé (même dans la barre des tâches) !"⟩
      else if env.GOOS = "darwin" then
        let command := "sudo chown -R \"$\x7bUSER\x7d:wheel\" " ++ di.path
        ⟨false, "Permission refusée. Veuillez accorder l'accès complet au disque à l'installateur dans les réglages système.\n\nSi cela ne fonctionne pas, essayez cette commande :\n" ++ command⟩
      else if env.GOOS = "linux" then
        let command := "sudo chown -R \"$USER:$USER\" " ++ di.path
        ⟨false, "Permission refusée. Essayez de lancer l'installateur avec les privilèges sudo.\n\nCommande recommandée :\n" ++ command⟩
      else
        ⟨false, "Permission refusée. Essayez de lancer en tant qu'Administrateur."⟩
    else err
  ShowModal ("Échec de l'action : " ++ action) err.text

/-- Function `HandleScuffedInstall`. -/
def HandleScuffedInstall : Gui Unit := g.OpenPopup "#scuffed-install"

/-- Method `(*DiscordInstall).Patch`. -/
def DiscordInstall.Patch (env : Env) (di : DiscordInstall) : Gui Unit := do
  if (← Gui.call .CheckScuffedInstall env.CheckScuffedInstall) then
    return
  else
    match (← Gui.call (.patch di) (fun t => env.patch t di)) with
    | some err => handleErr env di err "patch"
    | none => g.OpenPopup "#patched"

/-- Method `(*DiscordInstall).Unpatch`. -/
def DiscordInstall.Unpatch (env : Env) (di : DiscordInstall) : Gui Unit := do
  match (← Gui.call (.unpatch di) (fun t => env.unpatch t di)) with
  | some err => handleErr env di err "unpatch"
  | none => g.OpenPopup "#unpatched"

/-- Function `InstallLatestBuilds`; the result is the returned `err` (`none` for `nil`). -/
def InstallLatestBuilds (env : Env) : Gui (Option GoError) := do
  if env.IsDevInstall then
    return none
  else
    let err ← Gui.call .installLatestBuilds env.installLatestBuilds
    match err with
    | some e =>
      ShowModal "Uh Oh!" ("Échec de l'installation des derniers builds de Mushcord depuis GitHub :\n" ++ e.text)
    | none => pure ()
    return err

/-- Function `handlePatch`. -/
def handlePatch (env : Env) : Gui Unit := do
  let choice ← getChosenInstall env
  match choice with
  | some choice => choice.Patch env
  | none => pure ()

/-- Function `handleUnpatch`. -/
def handleUnpatch (env : Env) : Gui Unit := do
  let choice ← getChosenInstall env
  match choice with
  | some choice => choice.Unpatch env
  | none => pure ()

/-- The method call `recv.IsOpenAsar()`.  Go dispatches a pointer-receiver method on a `nil`
pointer as well, so the call is recorded whatever the receiver is. -/
def callIsOpenAsar (env : Env) (recv : Option DiscordInstall) : Gui Bool := fun s =>
  match env.IsOpenAsar s.trace recv with
  | some b => .ok b { s with trace := s.trace ++ [.IsOpenAsar recv] }
  | none => .panic { s with trace := s.trace ++ [.IsOpenAsar recv] }

/-- Function `handleOpenAsarConfirmed`. -/
def handleOpenAsarConfirmed (env : Env) : Gui Unit := do
  let choice ← getChosenInstall env
  match choice with
  | some choice =>
    if (← callIsOpenAsar env (some choice)) then
      match (← Gui.call (.UninstallOpenAsar choice) (fun t => env.UninstallOpenAsar t choice)) with
      | some err => handleErr env choice err "désinstaller OpenAsar de"
      | none =>
        g.OpenPopup "#openasar-unpatched"
        g.Update
    else
      match (← Gui.call (.InstallOpenAsar choice) (fun t => env.InstallOpenAsar t choice)) with
      | some err => handleErr env choice err "installer OpenAsar sur"
      | none =>
        g.OpenPopup "#openasar-patched"
        g.Update
  | none => pure ()

/-- Function `handleOpenAsar`.  The condition `acceptedOpenAsar || getChosenInstall().IsOpenAsar()`
short-circuits: the right operand runs only when `acceptedOpenAsar` is false. -/
def handleOpenAsar (env : Env) : Gui Unit := do
  let s ← Gui.get
  let cond ←
    if s.acceptedOpenAsar then pure true
    else do
      let choice ← getChosenInstall env
      callIsOpenAsar env choice
  if cond then
    handleOpenAsarConfirmed env
  else
    g.OpenPopup "#openasar-confirm"

/-- Function `onCustomInputChanged`. -/
def onCustomInputChanged (env : Env) : Gui Unit := do
  let p := (← Gui.get).customDir
  if p.length ≠ 0 then
    Gui.modify fun s => { s with radioIdx := s.customChoiceIdx }
  let dir := env.pathDir p
  let isNewDir := HasSuffix p "/"
  let wentUpADir := !isNewDir && decide (dir ≠ (← Gui.get).autoCompleteDir)
  if isNewDir || wentUpADir then
    Gui.modify fun s => { s with autoCompleteDir := dir }
    Gui.modify fun s => { s with autoCompleteIdx := 0 }
    Gui.modify fun s => { s with lastAutoComplete := "" }
    Gui.modify fun s => { s with autoCompleteFile := "" }
    Gui.modify fun s => { s with autoCompleteCandidates := [] }
    match (← Gui.call (.ReadDir dir) (fun t => env.ReadDir t dir)) with
    | some files =>
      Gui.modify fun s => { s with
        autoCompleteCandidates :=
          files.foldl (fun acc file => acc ++ [file]) s.autoCompleteCandidates }
    | none => pure ()
  else if !(← Gui.get).didAutoComplete then
    Gui.modify fun s => { s with autoCompleteFile := env.pathBase p }
    Gui.modify fun s => { s with lastAutoComplete := "" }
  if wentUpADir then
    Gui.modify fun s => { s with autoCompleteFile := env.pathBase p }
  Gui.modify fun s => { s with didAutoComplete := false }

/-- Function `makeAutoComplete`: the loop over `autoCompleteCandidates` appends to `candidates`. -/
def makeAutoComplete (env : Env) (s : GuiState) : List String :=
  let input := ToLower env.unicodeToLower s.autoCompleteFile
  s.autoCompleteCandidates.foldl
    (fun candidates e =>
      let file := ToLower env.unicodeToLower e
      if s.autoCompleteFile = "" || HasPrefix file input then candidates ++ [e] else candidates)
    []

/-- Function `makeRadioOnChange`: the returned closure. -/
def makeRadioOnChange (i : Int) : Gui Unit :=
  Gui.modify fun s => { s with radioIdx := i }

/-- In `renderInstaller`: the computation of `currentDiscord`. -/
def renderInstaller_currentDiscord : Gui (Option DiscordInstall) := do
  let s ← Gui.get
  if s.radioIdx ≠ s.customChoiceIdx then
    let d ← indexDiscords s.radioIdx
    return some d
  else
    return none

/-- In `renderInstaller`: the `OnChange` callbacks of the radio buttons.  `g.RangeBuilder` calls
its builder with every index `i` of `discords`; one more button is built for the custom
location. -/
def renderInstaller_radioOnChange (s : GuiState) : List (Gui Unit) :=
  (List.range s.discords.length).map (fun (i : Nat) => makeRadioOnChange (i : Int))
    ++ [makeRadioOnChange s.customChoiceIdx]

/-- In `renderInstaller`: the `OnClick` callback of the repair button. -/
def renderInstaller_repairOnClick (env : Env) : Gui Unit := do
  if env.IsDevInstall then
    handlePatch env
  else
    let err ← InstallLatestBuilds env
    if err = none then
      handlePatch env

/-- In `UpdateModal`: the `OnClick` callback of the update button. -/
def UpdateModal_updateOnClick (env : Env) : Gui Unit := do
  if env.GOOS = "darwin" then
    g.CloseCurrentPopup
    let link ← Gui.call .GetInstallerDownloadLink env.GetInstallerDownloadLink
    g.OpenURL link
    return
  else
    let err ← Gui.call .UpdateSelf env.UpdateSelf
    g.CloseCurrentPopup
    match err with
    | some e => ShowModal "Échec de la mise à jour !" e.text
    | none =>
      match (← Gui.call .RelaunchSelf env.RelaunchSelf) with
      | some e => ShowModal "Échec du redémarrage ! Faites-le manuellement." e.text
      | none => pure ()

/-- In `loop`: the callback of the `KeyUp` shortcut.  The guard excludes underflow. -/
def loop_KeyUp : Gui Unit := do
  if (← Gui.get).radioIdx > 0 then
    Gui.modify fun s => { s with radioIdx := s.radioIdx - 1 }

/-- In `loop`: the callback of the `KeyDown` shortcut.  The guard excludes overflow. -/
def loop_KeyDown : Gui Unit := do
  let s ← Gui.get
  if s.radioIdx < s.customChoiceIdx then
    Gui.modify fun s => { s with radioIdx := s.radioIdx + 1 }

/-! ## Sample environment and states -/

/-- An environment in which nothing is scuffed, every operation succeeds, only the directory
`/opt/discord` parses as an installation, and lower-casing is the ASCII one. -/
def sampleEnv : Env where
  GOOS := "linux"
  IsDevInstall := false
  ParseDiscord := fun _ dir _ => if dir = "/opt/discord" then some ⟨dir, "stable", false⟩ else none
  CheckScuffedInstall := fun _ => false
  patch := fun _ _ => none
  unpatch := fun _ _ => none
  IsOpenAsar := fun _ recv => recv.map fun _ => false
  InstallOpenAsar := fun _ _ => none
  UninstallOpenAsar := fun _ _ => none
  installLatestBuilds := fun _ => none
  UpdateSelf := fun _ => none
  RelaunchSelf := fun _ => none
  GetInstallerDownloadLink := fun _ => "https://github.com/MushZI/Mushcord-Installer/releases/latest"
  ReadDir := fun _ _ => some ["Discord", "discord-canary", "Documents"]
  pathDir := fun p => p
  pathBase := fun p => p
  unicodeToLower := Char.toLower

/-- Two discovered installations. -/
def sampleDiscords : List DiscordInstall :=
  [⟨"/usr/share/discord", "stable", false⟩, ⟨"/usr/share/discord-canary", "canary", true⟩]

/-- The state right after start-up with `sampleDiscords` discovered. -/
def sampleState : GuiState := mainInit sampleDiscords

/-- An environment like `sampleEnv` in which `CheckScuffedInstall` always reports true. -/
def scuffedEnv : Env := { sampleEnv with CheckScuffedInstall := fun _ => true }

/-- A permission error, as `os.WriteFile` returns for a read-only directory. -/
def permissionError : GoError := ⟨true, "open /usr/share/discord/resources/app.asar: permission denied"⟩

/-- An error that is not a permission error. -/
def networkError : GoError := ⟨false, "dial tcp: lookup api.github.com: no such host"⟩

/-- An environment like `sampleEnv` whose in-place update fails with `networkError`. -/
def failingUpdateEnv : Env := { sampleEnv with UpdateSelf := fun _ => some networkError }

/-- An environment like `sampleEnv` whose download of the latest builds fails. -/
def failingDownloadEnv : Env := { sampleEnv with installLatestBuilds := fun _ => some networkError }

/-- The start-up state after the user selected the custom location and typed a path that is
not an installation. -/
def invalidCustomState : GuiState :=
  { sampleState with radioIdx := 2, customDir := "/tmp/not-discord" }

/-- The auto-completion state after the directory listing of `sampleEnv` was read and before
the user typed the start of a file name. -/
def completionState : GuiState :=
  { sampleState with
    autoCompleteCandidates := ["Discord", "discord-canary", "Documents"]
    autoCompleteFile := "" }

/-! ## Specification vocabulary -/

/-- Events a run appended to the trace of the state it started from. -/
def newEvents {α : Type} (s : GuiState) (o : Outcome α) : List Event :=
  o.state.trace.drop s.trace.length

/-- The calls and popups a run of `handlePatch` can record. -/
def IsPatchEvent (s : GuiState) (e : Event) : Prop :=
  e = .ParseDiscord s.customDir "" ∨ e = .CheckScuffedInstall ∨ (∃ d, e = .patch d) ∨
    ∃ id, e = .OpenPopup id

/-- The four release-channel suffixes: stable, PTB, canary, development. -/
def channelSuffixes : List String := ["", "PTB", "Canary", "Development"]

/-- The names the four channels call for: per channel the capitalised name, its all-lowercase
form and the reverse-DNS bundle ID, and per non-stable channel the hyphenated form. -/
def expectedLinuxNames : List String :=
  channelSuffixes.flatMap (fun c =>
    ["Discord" ++ c, ToLower Char.toLower ("Discord" ++ c), "com.discordapp.Discord" ++ c]
      ++ (if c = "" then [] else ["discord-" ++ ToLower Char.toLower c]))

/-- The selection-index invariant `0 <= radioIdx <= customChoiceIdx = len(discords)`. -/
def SelectionInv (s : GuiState) : Prop :=
  0 ≤ s.radioIdx ∧ s.radioIdx ≤ s.customChoiceIdx ∧ s.customChoiceIdx = (s.discords.length : Int)

instance (s : GuiState) : Decidable (SelectionInv s) := by
  unfold SelectionInv
  infer_instance

/-- States the interface can reach from start-up with `found` installs discovered.  `radioIdx`
is written by the two keyboard shortcuts, by the radio-button callbacks of any earlier render
and by `onCustomInputChanged`; `frame` stands for every other operation, none of which assigns
`radioIdx`, `customChoiceIdx` or `discords` (such as a run of a button handler, or the text
widget storing its content in `customDir`). -/
inductive Reachable (env : Env) (found : List DiscordInstall) : GuiState → Prop where
  | init : Reachable env found (mainInit found)
  | keyUp {s : GuiState} : Reachable env found s → Reachable env found (loop_KeyUp s).state
  | keyDown {s : GuiState} : Reachable env found s → Reachable env found (loop_KeyDown s).state
  | radio {s0 s : GuiState} (cb : Gui Unit) :
      Reachable env found s0 → Reachable env found s →
      cb ∈ renderInstaller_radioOnChange s0 → Reachable env found (cb s).state
  | customInput {s : GuiState} :
      Reachable env found s → Reachable env found (onCustomInputChanged env s).state
  | frame {s : GuiState} (s1 : GuiState) :
      Reachable env found s → s1.radioIdx = s.radioIdx →
      s1.customChoiceIdx = s.customChoiceIdx → s1.discords.length = s.discords.length →
      Reachable env found s1

/-! # Theorems -/

/-! ## Run equations of the building blocks -/

theorem newEvents_append {α : Type} (s : GuiState) (o : Outcome α) (evs : List Event)
    (h : o.state.trace = s.trace ++ evs) : newEvents s o = evs := by
  simp [newEvents, h]

theorem ShowModal_run (title desc : String) (s : GuiState) :
    ShowModal title desc s = .ok ()
      { s with
        modalTitle := title
        modalMessage := desc
        modalId := wrapInt (s.modalId + 1)
        trace := s.trace ++ [.OpenPopup ("#modal" ++ Itoa (wrapInt (s.modalId + 1)))] } := by
  simp [ShowModal, Gui.modify, Gui.get, g.OpenPopup, Gui.emit, bind, Gui.bind]

theorem Patch_run_scuffed (env : Env) (di : DiscordInstall) (s : GuiState)
    (h : env.CheckScuffedInstall s.trace = true) :
    di.Patch env s = .ok () { s with trace := s.trace ++ [.CheckScuffedInstall] } := by
  simp [DiscordInstall.Patch, Gui.call, bind, Gui.bind, h, pure, Gui.pure]

theorem Patch_run_ok (env : Env) (di : DiscordInstall) (s : GuiState)
    (h : env.CheckScuffedInstall s.trace = false)
    (hp : env.patch (s.trace ++ [.CheckScuffedInstall]) di = none) :
    di.Patch env s = .ok ()
      { s with trace := s.trace ++ [.CheckScuffedInstall, .patch di, .OpenPopup "#patched"] } := by
  simp [DiscordInstall.Patch, Gui.call, bind, Gui.bind, h, hp, g.OpenPopup, Gui.emit]

theorem Patch_run_err (env : Env) (di : DiscordInstall) (s : GuiState) (err : GoError)
    (h : env.CheckScuffedInstall s.trace = false)
    (hp : env.patch (s.trace ++ [.CheckScuffedInstall]) di = some err) :
    di.Patch env s = handleErr env di err "patch"
      { s with trace := s.trace ++ [.CheckScuffedInstall, .patch di] } := by
  simp [DiscordInstall.Patch, Gui.call, bind, Gui.bind, h, hp]

theorem handleErr_trace (env : Env) (di : DiscordInstall) (err : GoError) (action : String)
    (s : GuiState) :
    (handleErr env di err action s).state.trace
      = s.trace ++ [.OpenPopup ("#modal" ++ Itoa (wrapInt (s.modalId + 1)))] := by
  simp [handleErr, ShowModal_run, Outcome.state]

/-! ## Patch and unpatch -/

/-- C1: `DiscordInstall.Patch` on a scuffed install returns after the check alone: nothing but
the `CheckScuffedInstall` call is recorded (no `di.patch`, no `#patched` popup, no error modal)
and no package variable changes.  Over all installs, `patch` is invoked if and only if
`CheckScuffedInstall()` reported false, and then it is invoked exactly once, on `di`, right
after the check. -/
theorem C1_Patch_refuses_scuffed_install (env : Env) (di : DiscordInstall) (s : GuiState) :
    (env.CheckScuffedInstall s.trace = true →
      di.Patch env s = .ok () { s with trace := s.trace ++ [.CheckScuffedInstall] } ∧
      newEvents s (di.Patch env s) = [.CheckScuffedInstall]) ∧
    ((∃ d, Event.patch d ∈ newEvents s (di.Patch env s)) ↔
      env.CheckScuffedInstall s.trace = false) ∧
    (env.CheckScuffedInstall s.trace = false →
      (newEvents s (di.Patch env s)).take 2 = [.CheckScuffedInstall, .patch di] ∧
      (newEvents s (di.Patch env s)).count (.patch di) = 1) := by
  cases h : env.CheckScuffedInstall s.trace
  · have key : ∃ rest, newEvents s (di.Patch env s)
          = [.CheckScuffedInstall, .patch di] ++ rest ∧ Event.patch di ∉ rest := by
      cases hp : env.patch (s.trace ++ [.CheckScuffedInstall]) di with
      | none =>
        refine ⟨[.OpenPopup "#patched"], ?_, by simp⟩
        rw [Patch_run_ok env di s h hp]
        exact newEvents_append _ _ _ rfl
      | some err =>
        refine ⟨[.OpenPopup ("#modal" ++ Itoa (wrapInt (s.modalId + 1)))], ?_, by simp⟩
        rw [Patch_run_err env di s err h hp]
        apply newEvents_append
        rw [handleErr_trace]
        simp
    obtain ⟨rest, hrest, hnot⟩ := key
    refine ⟨by simp, ⟨fun _ => rfl, fun _ => ⟨di, by simp [hrest]⟩⟩, fun _ => ?_⟩
    rw [hrest]
    refine ⟨by simp, ?_⟩
    simp [List.count_cons, List.count_eq_zero.mpr hnot]
  · have hrun := Patch_run_scuffed env di s h
    have hnew : newEvents s (di.Patch env s) = [.CheckScuffedInstall] := by
      rw [hrun]
      exact newEvents_append _ _ _ rfl
    refine ⟨fun _ => ⟨hrun, hnew⟩, ?_, by simp⟩
    simp [hnew]

/-- C1, on a scuffed install: the run of `Patch` records the check and nothing else. -/
theorem C1_Patch_refuses_scuffed_install_witness :
    scuffedEnv.CheckScuffedInstall sampleState.trace = true ∧
    newEvents sampleState (DiscordInstall.Patch scuffedEnv ⟨"/usr/share/discord", "stable", false⟩
      sampleState) = [.CheckScuffedInstall] :=
  ⟨rfl, ((C1_Patch_refuses_scuffed_install scuffedEnv ⟨"/usr/share/discord", "stable", false⟩
    sampleState).1 rfl).2⟩

/-- C2, evaluated: with `CheckScuffedInstall` reporting true at every moment, `handleUnpatch` on
the first discovered install (and `Unpatch` on it directly) still invokes `unpatch` and opens
the `#unpatched` popup, and never consults `CheckScuffedInstall`. -/
theorem C2_Unpatch_does_not_revalidate :
    (∀ t, scuffedEnv.CheckScuffedInstall t = true) ∧
    newEvents sampleState (handleUnpatch scuffedEnv sampleState)
      = [.unpatch ⟨"/usr/share/discord", "stable", false⟩, .OpenPopup "#unpatched"] ∧
    newEvents sampleState
        (DiscordInstall.Unpatch scuffedEnv ⟨"/usr/share/discord", "stable", false⟩ sampleState)
      = [.unpatch ⟨"/usr/share/discord", "stable", false⟩, .OpenPopup "#unpatched"] := by
  refine ⟨fun _ => rfl, ?_, ?_⟩ <;> decide

/-! ## Error reporting -/

theorem handleErr_run_other (env : Env) (di : DiscordInstall) (err : GoError) (action : String)
    (s : GuiState) (h : err.isPermission = false) :
    handleErr env di err action s = ShowModal ("Échec de l'action : " ++ action) err.text s := by
  simp [handleErr, h]

/-- C3: `handleErr` always shows one modal titled `"Échec de l'action : " + action`.  For a
permission error its message is the remediation text of the OS: the close-Discord guidance on
windows, a text ending in the `chown` command on `di.path` on linux and on darwin (there after
the disk-access instruction), the run-as-Administrator text elsewhere; the message is the same
for any two permission errors, actions and states as long as the OS and `di.path` agree.  For
any other error the message is `err.Error()`. -/
theorem C3_handleErr_permission_remediation (env : Env) (di : DiscordInstall) (err : GoError)
    (action : String) (s : GuiState) :
    (handleErr env di err action s).val? = some () ∧
    (handleErr env di err action s).state.modalTitle = "Échec de l'action : " ++ action ∧
    newEvents s (handleErr env di err action s)
      = [.OpenPopup ("#modal" ++ Itoa (handleErr env di err action s).state.modalId)] ∧
    (err.isPermission = false →
      (handleErr env di err action s).state.modalMessage = err.text) ∧
    (err.isPermission = true →
      (env.GOOS = "windows" → (handleErr env di err action s).state.modalMessage
        = "Permission refusée. Assurez-vous que Discord est totalement fermé (même dans la barre des tâches) !") ∧
      (env.GOOS = "linux" → (handleErr env di err action s).state.modalMessage
        = "Permission refusée. Essayez de lancer l'installateur avec les privilèges sudo.\n\nCommande recommandée :\n"
          ++ ("sudo chown -R \"$USER:$USER\" " ++ di.path)) ∧
      (env.GOOS = "darwin" → (handleErr env di err action s).state.modalMessage
        = "Permission refusée. Veuillez accorder l'accès complet au disque à l'installateur dans les réglages système.\n\nSi cela ne fonctionne pas, essayez cette commande :\n"
          ++ ("sudo chown -R \"$\x7bUSER\x7d:wheel\" " ++ di.path)) ∧
      (env.GOOS ≠ "windows" → env.GOOS ≠ "linux" → env.GOOS ≠ "darwin" →
        (handleErr env di err action s).state.modalMessage
          = "Permission refusée. Essayez de lancer en tant qu'Administrateur.") ∧
      (∀ (env2 : Env) (di2 : DiscordInstall) (err2 : GoError) (action2 : String) (s2 : GuiState),
        env2.GOOS = env.GOOS → di2.path = di.path → err2.isPermission = true →
        (handleErr env2 di2 err2 action2 s2).state.modalMessage
          = (handleErr env di err action s).state.modalMessage)) := by
  refine ⟨?_, ?_, ?_, ?_, ?_⟩
  · simp [handleErr, ShowModal_run, Outcome.val?]
  · simp [handleErr, ShowModal_run, Outcome.state]
  · apply newEvents_append
    simp [handleErr, ShowModal_run, Outcome.state]
  · intro h
    simp [handleErr_run_other _ _ _ _ _ h, ShowModal_run, Outcome.state]
  · intro h
    refine ⟨?_, ?_, ?_, ?_, ?_⟩
    · intro hos
      simp [handleErr, ShowModal_run, Outcome.state, h, hos]
    · intro hos
      simp [handleErr, ShowModal_run, Outcome.state, h, hos]
    · intro hos
      simp [handleErr, ShowModal_run, Outcome.state, h, hos]
    · intro hw hl hd
      simp [handleErr, ShowModal_run, Outcome.state, h, hw, hl, hd]
    · intro env2 di2 err2 action2 s2 hos hpath h2
      simp [handleErr, ShowModal_run, Outcome.state, h, h2, hos, hpath]

/-- C3 on linux: the modal of a permission error carries the `chown` command on the install's
path, not the error's own text. -/
theorem C3_handleErr_permission_remediation_witness :
    permissionError.isPermission = true ∧ sampleEnv.GOOS = "linux" ∧
    (handleErr sampleEnv ⟨"/usr/share/discord", "stable", false⟩ permissionError "patch"
        sampleState).state.modalMessage
      = "Permission refusée. Essayez de lancer l'installateur avec les privilèges sudo.\n\nCommande recommandée :\n"
        ++ ("sudo chown -R \"$USER:$USER\" " ++ "/usr/share/discord") :=
  ⟨rfl, rfl,
    ((C3_handleErr_permission_remediation sampleEnv ⟨"/usr/share/discord", "stable", false⟩
      permissionError "patch" sampleState).2.2.2.2 rfl).2.1 rfl⟩

/-! ## Resolving the selection -/

theorem indexDiscords_run (s : GuiState) (h0 : 0 ≤ s.radioIdx)
    (h1 : s.radioIdx < (s.discords.length : Int)) :
    ∃ d, s.discords[s.radioIdx.toNat]? = some d ∧ indexDiscords s.radioIdx s = .ok d s := by
  have hlt : s.radioIdx.toNat < s.discords.length := by omega
  refine ⟨s.discords[s.radioIdx.toNat], List.getElem?_eq_getElem hlt, ?_⟩
  simp [indexDiscords, h0, List.getElem?_eq_getElem hlt]

theorem getChosenInstall_run_custom (env : Env) (s : GuiState)
    (h : s.radioIdx = s.customChoiceIdx) :
    getChosenInstall env s = .ok (env.ParseDiscord s.trace s.customDir "")
      { s with trace := s.trace ++ (.ParseDiscord s.customDir "" ::
          if env.ParseDiscord s.trace s.customDir "" = none
          then [.OpenPopup "#invalid-custom-location"] else []) } := by
  cases hp : env.ParseDiscord s.trace s.customDir "" <;>
    simp [getChosenInstall, Gui.get, Gui.call, bind, Gui.bind, h, hp, pure, Gui.pure,
      g.OpenPopup, Gui.emit]

theorem getChosenInstall_run_discovered (env : Env) (s : GuiState)
    (h : s.radioIdx ≠ s.customChoiceIdx) :
    getChosenInstall env s
      = (match indexDiscords s.radioIdx s with
        | .ok d s1 => .ok (some d) s1
        | .panic s1 => .panic s1) := by
  simp only [getChosenInstall, Gui.get, bind, Gui.bind, h, if_false, pure, Gui.pure]
  cases indexDiscords s.radioIdx s <;> rfl

/-- C4: with the custom location selected, `getChosenInstall` makes exactly one call
`ParseDiscord(customDir, "")`, returns its result, and opens `#invalid-custom-location` if and
only if that result is nil.  With a discovered install selected (a valid index other than
`customChoiceIdx`) it returns `discords[radioIdx]` and leaves the state untouched: no call to
`ParseDiscord`, no popup. -/
theorem C4_getChosenInstall_resolves_selection (env : Env) (s : GuiState) :
    (s.radioIdx = s.customChoiceIdx →
      (getChosenInstall env s).val? = some (env.ParseDiscord s.trace s.customDir "") ∧
      (newEvents s (getChosenInstall env s)).take 1 = [.ParseDiscord s.customDir ""] ∧
      (newEvents s (getChosenInstall env s)).count (.ParseDiscord s.customDir "") = 1 ∧
      (Event.OpenPopup "#invalid-custom-location" ∈ newEvents s (getChosenInstall env s) ↔
        env.ParseDiscord s.trace s.customDir "" = none)) ∧
    (s.radioIdx ≠ s.customChoiceIdx →
      newEvents s (getChosenInstall env s) = [] ∧
      (0 ≤ s.radioIdx → s.radioIdx < (s.discords.length : Int) →
        ∃ d, s.discords[s.radioIdx.toNat]? = some d ∧
          getChosenInstall env s = .ok (some d) s)) := by
  constructor
  · intro h
    have hrun := getChosenInstall_run_custom env s h
    have hnew : newEvents s (getChosenInstall env s)
        = .ParseDiscord s.customDir "" ::
            if env.ParseDiscord s.trace s.customDir "" = none
            then [.OpenPopup "#invalid-custom-location"] else [] := by
      rw [hrun]
      exact newEvents_append _ _ _ rfl
    refine ⟨by rw [hrun]; rfl, by rw [hnew]; rfl, ?_, ?_⟩
    · rw [hnew]
      cases env.ParseDiscord s.trace s.customDir "" <;> simp
    · rw [hnew]
      cases env.ParseDiscord s.trace s.customDir "" <;> simp
  · intro h
    have hrun := getChosenInstall_run_discovered env s h
    constructor
    · rw [hrun]
      have : (indexDiscords s.radioIdx s).state = s := by
        unfold indexDiscords
        split
        · split <;> rfl
        · rfl
      cases hi : indexDiscords s.radioIdx s <;> rw [hi] at this <;>
        simp [Outcome.state] at this <;> simp [newEvents, Outcome.state, this]
    · intro h0 h1
      obtain ⟨d, hd, hidx⟩ := indexDiscords_run s h0 h1
      exact ⟨d, hd, by rw [hrun, hidx]⟩

/-- C4 on the start-up state with two installs: the first one is selected and returned. -/
theorem C4_getChosenInstall_resolves_selection_witness :
    sampleState.radioIdx ≠ sampleState.customChoiceIdx ∧
    newEvents sampleState (getChosenInstall sampleEnv sampleState) = [] :=
  ⟨by decide, ((C4_getChosenInstall_resolves_selection sampleEnv sampleState).2 (by decide)).1⟩

theorem Patch_events (env : Env) (di : DiscordInstall) (s : GuiState) :
    ∃ evs, (di.Patch env s).val? = some () ∧
      (di.Patch env s).state.trace = s.trace ++ .CheckScuffedInstall :: evs ∧
      ∀ e ∈ evs, (∃ d, e = .patch d) ∨ ∃ id, e = .OpenPopup id := by
  cases h : env.CheckScuffedInstall s.trace with
  | true =>
    refine ⟨[], ?_, ?_, by simp⟩ <;> rw [Patch_run_scuffed env di s h] <;> rfl
  | false =>
    cases hp : env.patch (s.trace ++ [.CheckScuffedInstall]) di with
    | none =>
      refine ⟨[.patch di, .OpenPopup "#patched"], ?_, ?_, by simp⟩ <;>
        rw [Patch_run_ok env di s h hp] <;> simp [Outcome.val?, Outcome.state]
    | some err =>
      refine ⟨[.patch di, .OpenPopup ("#modal" ++ Itoa (wrapInt (s.modalId + 1)))], ?_, ?_,
        by simp⟩
      · rw [Patch_run_err env di s err h hp]
        simp [handleErr, ShowModal_run, Outcome.val?]
      · rw [Patch_run_err env di s err h hp, handleErr_trace]
        simp

theorem handlePatch_events (env : Env) (s : GuiState) :
    (∀ e ∈ newEvents s (handlePatch env s), IsPatchEvent s e) ∧
    ((handlePatch env s).val? = some () →
      (newEvents s (handlePatch env s)).head? = some (.ParseDiscord s.customDir "") ∨
      (newEvents s (handlePatch env s)).head? = some .CheckScuffedInstall) := by
  by_cases h : s.radioIdx = s.customChoiceIdx
  · have hrun := getChosenInstall_run_custom env s h
    cases hp : env.ParseDiscord s.trace s.customDir "" with
    | none =>
      rw [hp] at hrun
      have hnew : newEvents s (handlePatch env s)
          = [.ParseDiscord s.customDir "", .OpenPopup "#invalid-custom-location"] := by
        apply newEvents_append
        simp [handlePatch, bind, Gui.bind, hrun, pure, Gui.pure, Outcome.state]
      rw [hnew]
      refine ⟨?_, fun _ => Or.inl rfl⟩
      intro e he
      simp only [List.mem_cons, List.mem_singleton, List.not_mem_nil, or_false] at he
      rcases he with rfl | rfl
      · exact Or.inl rfl
      · exact Or.inr (Or.inr (Or.inr ⟨_, rfl⟩))
    | some d =>
      rw [hp] at hrun
      obtain ⟨evs, -, htr, hevs⟩ := Patch_events env d
        { s with trace := s.trace ++ [.ParseDiscord s.customDir ""] }
      have hnew : newEvents s (handlePatch env s)
          = .ParseDiscord s.customDir "" :: .CheckScuffedInstall :: evs := by
        apply newEvents_append
        simp only [handlePatch, bind, Gui.bind, hrun]
        simpa using htr
      rw [hnew]
      refine ⟨?_, fun _ => Or.inl rfl⟩
      intro e he
      simp only [List.mem_cons] at he
      rcases he with rfl | rfl | he
      · exact Or.inl rfl
      · exact Or.inr (Or.inl rfl)
      · exact Or.inr (Or.inr (hevs e he))
  · have hrun := getChosenInstall_run_discovered env s h
    cases hi : indexDiscords s.radioIdx s with
    | panic s1 =>
      have hs1 : s1 = s := by
        unfold indexDiscords at hi
        split at hi
        · split at hi <;> simp at hi
          exact hi.symm
        · simp at hi
          exact hi.symm
      subst hs1
      rw [hi] at hrun
      have hp : handlePatch env s1 = .panic s1 := by
        simp [handlePatch, bind, Gui.bind, hrun]
      rw [hp]
      simp [newEvents, Outcome.state, Outcome.val?]
    | ok d s1 =>
      have hs1 : s1 = s := by
        unfold indexDiscords at hi
        split at hi
        · split at hi <;> simp at hi
          exact hi.2.symm
        · simp at hi
      subst hs1
      rw [hi] at hrun
      obtain ⟨evs, -, htr, hevs⟩ := Patch_events env d s1
      have hnew : newEvents s1 (handlePatch env s1) = .CheckScuffedInstall :: evs := by
        apply newEvents_append
        simp only [handlePatch, bind, Gui.bind, hrun]
        exact htr
      rw [hnew]
      refine ⟨?_, fun _ => Or.inr rfl⟩
      intro e he
      simp only [List.mem_cons] at he
      rcases he with rfl | he
      · exact Or.inr (Or.inl rfl)
      · exact Or.inr (Or.inr (hevs e he))

/-! ## Self-update and repair -/

theorem updateOnClick_run_darwin (env : Env) (s : GuiState) (h : env.GOOS = "darwin") :
    UpdateModal_updateOnClick env s = .ok ()
      { s with trace := s.trace ++ [.CloseCurrentPopup, .GetInstallerDownloadLink,
          .OpenURL (env.GetInstallerDownloadLink (s.trace ++ [.CloseCurrentPopup]))] } := by
  simp [UpdateModal_updateOnClick, h, g.CloseCurrentPopup, g.OpenURL, Gui.emit, Gui.call, bind,
    Gui.bind, pure, Gui.pure]

theorem updateOnClick_run_failed (env : Env) (s : GuiState) (e : GoError)
    (h : env.GOOS ≠ "darwin") (hu : env.UpdateSelf s.trace = some e) :
    UpdateModal_updateOnClick env s = .ok ()
      { s with
        modalTitle := "Échec de la mise à jour !"
        modalMessage := e.text
        modalId := wrapInt (s.modalId + 1)
        trace := s.trace ++ [.UpdateSelf, .CloseCurrentPopup,
          .OpenPopup ("#modal" ++ Itoa (wrapInt (s.modalId + 1)))] } := by
  simp [UpdateModal_updateOnClick, h, hu, g.CloseCurrentPopup, Gui.emit, Gui.call, bind,
    Gui.bind, ShowModal_run]

theorem updateOnClick_trace_updated (env : Env) (s : GuiState)
    (h : env.GOOS ≠ "darwin") (hu : env.UpdateSelf s.trace = none) :
    ∃ rest, newEvents s (UpdateModal_updateOnClick env s)
      = [.UpdateSelf, .CloseCurrentPopup, .RelaunchSelf] ++ rest ∧
      Event.RelaunchSelf ∉ rest := by
  cases hr : env.RelaunchSelf (s.trace ++ [.UpdateSelf, .CloseCurrentPopup]) with
  | none =>
    refine ⟨[], ?_, by simp⟩
    apply newEvents_append
    simp [UpdateModal_updateOnClick, h, hu, hr, g.CloseCurrentPopup, Gui.emit, Gui.call, bind,
      Gui.bind, pure, Gui.pure, Outcome.state]
  | some e =>
    refine ⟨[.OpenPopup ("#modal" ++ Itoa (wrapInt (s.modalId + 1)))], ?_, by simp⟩
    apply newEvents_append
    simp [UpdateModal_updateOnClick, h, hu, hr, g.CloseCurrentPopup, Gui.emit, Gui.call, bind,
      Gui.bind, ShowModal_run, Outcome.state]

/-- C5: in the update button handler `RelaunchSelf` is invoked if and only if the OS is not
darwin and `UpdateSelf` returned no error, and then only after `UpdateSelf`.  On darwin the
handler closes the popup and opens the URL returned by `GetInstallerDownloadLink`, calling
neither `UpdateSelf` nor `RelaunchSelf`.  When `UpdateSelf` returns an error the handler shows a
modal whose message is that error's text and does not call `RelaunchSelf`. -/
theorem C5_update_relaunches_only_after_success (env : Env) (s : GuiState) :
    (Event.RelaunchSelf ∈ newEvents s (UpdateModal_updateOnClick env s) ↔
      env.GOOS ≠ "darwin" ∧ env.UpdateSelf s.trace = none) ∧
    (env.GOOS ≠ "darwin" → env.UpdateSelf s.trace = none →
      (newEvents s (UpdateModal_updateOnClick env s)).take 3
        = [.UpdateSelf, .CloseCurrentPopup, .RelaunchSelf]) ∧
    (env.GOOS = "darwin" →
      newEvents s (UpdateModal_updateOnClick env s)
        = [.CloseCurrentPopup, .GetInstallerDownloadLink,
            .OpenURL (env.GetInstallerDownloadLink (s.trace ++ [.CloseCurrentPopup]))]) ∧
    (∀ e, env.GOOS ≠ "darwin" → env.UpdateSelf s.trace = some e →
      newEvents s (UpdateModal_updateOnClick env s)
        = [.UpdateSelf, .CloseCurrentPopup,
            .OpenPopup ("#modal" ++ Itoa (UpdateModal_updateOnClick env s).state.modalId)] ∧
      (UpdateModal_updateOnClick env s).state.modalTitle = "Échec de la mise à jour !" ∧
      (UpdateModal_updateOnClick env s).state.modalMessage = e.text) := by
  have hdarwin : env.GOOS = "darwin" →
      newEvents s (UpdateModal_updateOnClick env s)
        = [.CloseCurrentPopup, .GetInstallerDownloadLink,
            .OpenURL (env.GetInstallerDownloadLink (s.trace ++ [.CloseCurrentPopup]))] := by
    intro h
    rw [updateOnClick_run_darwin env s h]
    exact newEvents_append _ _ _ rfl
  have hfailed : ∀ e, env.GOOS ≠ "darwin" → env.UpdateSelf s.trace = some e →
      newEvents s (UpdateModal_updateOnClick env s)
        = [.UpdateSelf, .CloseCurrentPopup,
            .OpenPopup ("#modal" ++ Itoa (UpdateModal_updateOnClick env s).state.modalId)] ∧
      (UpdateModal_updateOnClick env s).state.modalTitle = "Échec de la mise à jour !" ∧
      (UpdateModal_updateOnClick env s).state.modalMessage = e.text := by
    intro e h hu
    rw [updateOnClick_run_failed env s e h hu]
    exact ⟨newEvents_append _ _ _ rfl, rfl, rfl⟩
  refine ⟨?_, ?_, hdarwin, hfailed⟩
  · by_cases h : env.GOOS = "darwin"
    · simp [hdarwin h, h]
    · cases hu : env.UpdateSelf s.trace with
      | none =>
        obtain ⟨rest, hrest, -⟩ := updateOnClick_trace_updated env s h hu
        simp [hrest, h]
      | some e =>
        simp [(hfailed e h hu).1, h]
  · intro h hu
    obtain ⟨rest, hrest, -⟩ := updateOnClick_trace_updated env s h hu
    simp [hrest]

/-- C5 when the download fails on linux: a modal with the error's text, no relaunch. -/
theorem C5_update_relaunches_only_after_success_witness :
    failingUpdateEnv.GOOS ≠ "darwin" ∧
    failingUpdateEnv.UpdateSelf sampleState.trace = some networkError ∧
    newEvents sampleState (UpdateModal_updateOnClick failingUpdateEnv sampleState)
      = [.UpdateSelf, .CloseCurrentPopup,
          .OpenPopup ("#modal" ++
            Itoa (UpdateModal_updateOnClick failingUpdateEnv sampleState).state.modalId)] ∧
    (UpdateModal_updateOnClick failingUpdateEnv sampleState).state.modalTitle
      = "Échec de la mise à jour !" ∧
    (UpdateModal_updateOnClick failingUpdateEnv sampleState).state.modalMessage
      = networkError.text :=
  ⟨by decide, rfl,
    (C5_update_relaunches_only_after_success failingUpdateEnv sampleState).2.2.2
      networkError (by decide) rfl⟩

theorem InstallLatestBuilds_run_dev (env : Env) (s : GuiState) (h : env.IsDevInstall = true) :
    InstallLatestBuilds env s = .ok none s := by
  simp [InstallLatestBuilds, h, pure, Gui.pure]

theorem InstallLatestBuilds_run_ok (env : Env) (s : GuiState) (h : env.IsDevInstall = false)
    (hd : env.installLatestBuilds s.trace = none) :
    InstallLatestBuilds env s
      = .ok none { s with trace := s.trace ++ [.installLatestBuilds] } := by
  simp [InstallLatestBuilds, h, hd, Gui.call, bind, Gui.bind, pure, Gui.pure]

theorem InstallLatestBuilds_run_err (env : Env) (s : GuiState) (e : GoError)
    (h : env.IsDevInstall = false) (hd : env.installLatestBuilds s.trace = some e) :
    InstallLatestBuilds env s = .ok (some e)
      { s with
        modalTitle := "Uh Oh!"
        modalMessage :=
          "Échec de l'installation des derniers builds de Mushcord depuis GitHub :\n" ++ e.text
        modalId := wrapInt (s.modalId + 1)
        trace := s.trace ++ [.installLatestBuilds,
          .OpenPopup ("#modal" ++ Itoa (wrapInt (s.modalId + 1)))] } := by
  simp [InstallLatestBuilds, h, hd, Gui.call, bind, Gui.bind, pure, Gui.pure, ShowModal_run]

/-- C6: the repair button.  With `IsDevInstall` set, `InstallLatestBuilds` returns nil without
calling `installLatestBuilds`, and the handler is `handlePatch` run on the unchanged state, which
never calls `installLatestBuilds`.  Otherwise `installLatestBuilds` is called first: when it
returns no error the handler continues as `handlePatch`; when it returns `err` the handler
returns after showing the modal `Uh Oh!` whose message ends with `err.Error()`, having made no
further call (no `ParseDiscord`, no `CheckScuffedInstall`, no `patch`), whereas every run of
`handlePatch` that returns starts with one of the calls `ParseDiscord` or
`CheckScuffedInstall`. -/
theorem C6_repair_downloads_before_patch (env : Env) (s : GuiState) :
    (env.IsDevInstall = true →
      InstallLatestBuilds env s = .ok none s ∧
      renderInstaller_repairOnClick env s = handlePatch env s ∧
      Event.installLatestBuilds ∉ newEvents s (renderInstaller_repairOnClick env s)) ∧
    (env.IsDevInstall = false → env.installLatestBuilds s.trace = none →
      renderInstaller_repairOnClick env s
        = handlePatch env { s with trace := s.trace ++ [.installLatestBuilds] }) ∧
    (∀ e, env.IsDevInstall = false → env.installLatestBuilds s.trace = some e →
      (renderInstaller_repairOnClick env s).val? = some () ∧
      newEvents s (renderInstaller_repairOnClick env s)
        = [.installLatestBuilds,
            .OpenPopup ("#modal" ++ Itoa (renderInstaller_repairOnClick env s).state.modalId)] ∧
      (renderInstaller_repairOnClick env s).state.modalTitle = "Uh Oh!" ∧
      (renderInstaller_repairOnClick env s).state.modalMessage
        = "Échec de l'installation des derniers builds de Mushcord depuis GitHub :\n" ++ e.text ∧
      (∀ ev ∈ newEvents s (renderInstaller_repairOnClick env s),
        ev ≠ .CheckScuffedInstall ∧ (∀ dir branch, ev ≠ .ParseDiscord dir branch) ∧
        ∀ d, ev ≠ .patch d)) ∧
    (∀ s1, (handlePatch env s1).val? = some () →
      (newEvents s1 (handlePatch env s1)).head? = some (.ParseDiscord s1.customDir "") ∨
      (newEvents s1 (handlePatch env s1)).head? = some .CheckScuffedInstall) := by
  refine ⟨fun h => ?_, fun h hd => ?_, fun e h hd => ?_, fun s1 => (handlePatch_events env s1).2⟩
  · have hrun : renderInstaller_repairOnClick env s = handlePatch env s := by
      simp [renderInstaller_repairOnClick, h]
    refine ⟨InstallLatestBuilds_run_dev env s h, hrun, ?_⟩
    rw [hrun]
    intro hmem
    rcases (handlePatch_events env s).1 _ hmem with h1 | h1 | ⟨d, h1⟩ | ⟨id, h1⟩ <;>
      exact Event.noConfusion h1
  · simp [renderInstaller_repairOnClick, h, bind, Gui.bind, InstallLatestBuilds_run_ok env s h hd]
  · have hrun : renderInstaller_repairOnClick env s = .ok ()
        { s with
          modalTitle := "Uh Oh!"
          modalMessage :=
            "Échec de l'installation des derniers builds de Mushcord depuis GitHub :\n" ++ e.text
          modalId := wrapInt (s.modalId + 1)
          trace := s.trace ++ [.installLatestBuilds,
            .OpenPopup ("#modal" ++ Itoa (wrapInt (s.modalId + 1)))] } := by
      simp [renderInstaller_repairOnClick, h, bind, Gui.bind,
        InstallLatestBuilds_run_err env s e h hd, pure, Gui.pure]
    have hnew : newEvents s (renderInstaller_repairOnClick env s)
        = [.installLatestBuilds, .OpenPopup ("#modal" ++ Itoa (wrapInt (s.modalId + 1)))] := by
      rw [hrun]
      exact newEvents_append _ _ _ rfl
    refine ⟨by rw [hrun]; rfl, ?_, by rw [hrun]; rfl, by rw [hrun]; rfl, ?_⟩
    · rw [hnew, hrun]
      rfl
    · intro ev hev
      rw [hnew] at hev
      simp only [List.mem_cons, List.mem_singleton, List.not_mem_nil, or_false] at hev
      rcases hev with rfl | rfl <;> simp

/-- C6 when the download fails: the modal is shown and no patch is attempted. -/
theorem C6_repair_downloads_before_patch_witness :
    failingDownloadEnv.IsDevInstall = false ∧
    failingDownloadEnv.installLatestBuilds sampleState.trace = some networkError ∧
    (renderInstaller_repairOnClick failingDownloadEnv sampleState).state.modalMessage
      = "Échec de l'installation des derniers builds de Mushcord depuis GitHub :\n"
        ++ networkError.text ∧
    (∀ ev ∈ newEvents sampleState (renderInstaller_repairOnClick failingDownloadEnv sampleState),
      ev ≠ .CheckScuffedInstall ∧ (∀ dir branch, ev ≠ .ParseDiscord dir branch) ∧
      ∀ d, ev ≠ .patch d) :=
  ⟨rfl, rfl,
    ((C6_repair_downloads_before_patch failingDownloadEnv sampleState).2.2.1
      networkError rfl rfl).2.2.2⟩

/-! ## Platform names -/

/-- C7: `LinuxDiscordNames` contains, for every channel suffix, `"Discord"+s`, its lowercase
form and `"com.discordapp.Discord"+s`, and for every non-stable suffix `"discord-"+lower(s)`;
it contains nothing else, has no duplicate entry and has 15 entries. -/
theorem C7_LinuxDiscordNames_cover_channels :
    (∀ c ∈ channelSuffixes,
      "Discord" ++ c ∈ LinuxDiscordNames ∧
      ToLower Char.toLower ("Discord" ++ c) ∈ LinuxDiscordNames ∧
      "com.discordapp.Discord" ++ c ∈ LinuxDiscordNames ∧
      (c ≠ "" → "discord-" ++ ToLower Char.toLower c ∈ LinuxDiscordNames)) ∧
    (∀ n ∈ LinuxDiscordNames, n ∈ expectedLinuxNames) ∧
    LinuxDiscordNames.Nodup ∧
    LinuxDiscordNames.length = 15 := by
  refine ⟨?_, ?_, ?_, ?_⟩ <;> decide

/-- C7 for the canary channel. -/
theorem C7_LinuxDiscordNames_cover_channels_witness :
    "DiscordCanary" ∈ LinuxDiscordNames ∧
    "discordcanary" ∈ LinuxDiscordNames ∧
    "com.discordapp.DiscordCanary" ∈ LinuxDiscordNames ∧
    "discord-canary" ∈ LinuxDiscordNames :=
  have h := C7_LinuxDiscordNames_cover_channels.1 "Canary" (by decide)
  ⟨h.1, h.2.1, h.2.2.1, h.2.2.2 (by decide)⟩

/-! ## The selection index -/

theorem mainInit_inv (found : List DiscordInstall) : SelectionInv (mainInit found) := by
  simp [SelectionInv, mainInit]

theorem loop_KeyUp_run (s : GuiState) :
    loop_KeyUp s = .ok () (if s.radioIdx > 0 then { s with radioIdx := s.radioIdx - 1 } else s) := by
  by_cases h : s.radioIdx > 0 <;>
    simp [loop_KeyUp, Gui.get, Gui.modify, bind, Gui.bind, h, pure, Gui.pure]

theorem loop_KeyDown_run (s : GuiState) :
    loop_KeyDown s = .ok ()
      (if s.radioIdx < s.customChoiceIdx then { s with radioIdx := s.radioIdx + 1 } else s) := by
  by_cases h : s.radioIdx < s.customChoiceIdx <;>
    simp [loop_KeyDown, Gui.get, Gui.modify, bind, Gui.bind, h, pure, Gui.pure]

theorem loop_KeyUp_inv (s : GuiState) (h : SelectionInv s) : SelectionInv (loop_KeyUp s).state := by
  rw [loop_KeyUp_run]
  obtain ⟨h0, h1, h2⟩ := h
  by_cases hg : s.radioIdx > 0
  · simp only [hg, if_true, Outcome.state, SelectionInv]
    omega
  · simp only [hg, if_false, Outcome.state]
    exact ⟨h0, h1, h2⟩

theorem loop_KeyDown_inv (s : GuiState) (h : SelectionInv s) :
    SelectionInv (loop_KeyDown s).state := by
  rw [loop_KeyDown_run]
  obtain ⟨h0, h1, h2⟩ := h
  by_cases hg : s.radioIdx < s.customChoiceIdx
  · simp only [hg, if_true, Outcome.state, SelectionInv]
    omega
  · simp only [hg, if_false, Outcome.state]
    exact ⟨h0, h1, h2⟩

theorem radioOnChange_inv (s0 s : GuiState) (cb : Gui Unit) (h : SelectionInv s)
    (hc : s0.customChoiceIdx = s.customChoiceIdx) (hl : s0.discords.length = s.discords.length)
    (hcb : cb ∈ renderInstaller_radioOnChange s0) :
    cb s = .ok () { s with radioIdx := (cb s).state.radioIdx } ∧ SelectionInv (cb s).state := by
  obtain ⟨h0, h1, h2⟩ := h
  simp only [renderInstaller_radioOnChange, List.mem_append, List.mem_map, List.mem_range,
    List.mem_singleton] at hcb
  rcases hcb with ⟨i, hi, rfl⟩ | rfl
  · refine ⟨rfl, ?_⟩
    simp only [makeRadioOnChange, Gui.modify, Outcome.state, SelectionInv]
    omega
  · refine ⟨rfl, ?_⟩
    simp only [makeRadioOnChange, Gui.modify, Outcome.state, SelectionInv]
    omega

/-- The variables `onCustomInputChanged` leaves alone, and its one write to `radioIdx`. -/
theorem onCustomInputChanged_selection (env : Env) (s : GuiState) :
    (onCustomInputChanged env s).val? = some () ∧
    (onCustomInputChanged env s).state.discords = s.discords ∧
    (onCustomInputChanged env s).state.customChoiceIdx = s.customChoiceIdx ∧
    (onCustomInputChanged env s).state.radioIdx
      = if s.customDir.length ≠ 0 then s.customChoiceIdx else s.radioIdx := by
  unfold onCustomInputChanged
  simp only [Gui.get, Gui.modify, Gui.call, bind, Gui.bind, pure, Gui.pure]
  generalize env.pathDir s.customDir = dir
  by_cases hp : s.customDir.length = 0 <;>
  cases hn : HasSuffix s.customDir "/" <;>
  cases hc : s.didAutoComplete <;>
  cases hr : env.ReadDir s.trace dir <;>
  by_cases hd : dir = s.autoCompleteDir <;>
  first
  | (subst hd
     simp [hp, hn, hc, hr, Outcome.val?, Outcome.state, Gui.get, Gui.modify, Gui.call, bind,
       Gui.bind, pure, Gui.pure])
  | simp [hp, hn, hd, hc, hr, Outcome.val?, Outcome.state, Gui.get, Gui.modify, Gui.call, bind,
      Gui.bind, pure, Gui.pure]

theorem reachable_inv (env : Env) (found : List DiscordInstall) (s : GuiState)
    (h : Reachable env found s) : SelectionInv s ∧ s.discords.length = found.length := by
  induction h with
  | init => exact ⟨mainInit_inv found, rfl⟩
  | keyUp _ ih =>
    refine ⟨loop_KeyUp_inv _ ih.1, ?_⟩
    rw [loop_KeyUp_run]
    split <;> exact ih.2
  | keyDown _ ih =>
    refine ⟨loop_KeyDown_inv _ ih.1, ?_⟩
    rw [loop_KeyDown_run]
    split <;> exact ih.2
  | @radio s0 s cb _ _ hcb ih0 ih =>
    have hc : s0.customChoiceIdx = s.customChoiceIdx := by
      rw [ih0.1.2.2, ih.1.2.2, ih0.2, ih.2]
    have hl : s0.discords.length = s.discords.length := by rw [ih0.2, ih.2]
    obtain ⟨hrun, hinv⟩ := radioOnChange_inv s0 s cb ih.1 hc hl hcb
    refine ⟨hinv, ?_⟩
    rw [hrun]
    exact ih.2
  | @customInput s _ ih =>
    obtain ⟨-, hd, hc, hr⟩ := onCustomInputChanged_selection env s
    obtain ⟨h0, h1, h2⟩ := ih.1
    refine ⟨⟨?_, ?_, ?_⟩, ?_⟩
    · rw [hr]
      split <;> omega
    · rw [hr, hc]
      split <;> omega
    · rw [hc, hd]
      exact h2
    · rw [hd]
      exact ih.2
  | @frame s s1 _ hr hc hl ih =>
    obtain ⟨h0, h1, h2⟩ := ih.1
    refine ⟨⟨?_, ?_, ?_⟩, ?_⟩
    · rw [hr]
      exact h0
    · rw [hr, hc]
      exact h1
    · rw [hc, hl]
      exact h2
    · rw [hl]
      exact ih.2

/-- C8: `0 <= radioIdx <= customChoiceIdx = len(discords)` holds in the state `main` sets up,
is preserved by the Up and Down shortcuts, by `onCustomInputChanged` and by every radio-button
callback `renderInstaller` creates, and so holds in every reachable state.  In a state that
satisfies it with `radioIdx != customChoiceIdx`, the expression `discords[radioIdx]` is in
bounds: `getChosenInstall` and `renderInstaller` both obtain that element without a panic. -/
theorem C8_selection_index_invariant (env : Env) (found : List DiscordInstall) :
    SelectionInv (mainInit found) ∧
    (∀ s, SelectionInv s →
      SelectionInv (loop_KeyUp s).state ∧
      SelectionInv (loop_KeyDown s).state ∧
      SelectionInv (onCustomInputChanged env s).state ∧
      (∀ s0 cb, s0.customChoiceIdx = s.customChoiceIdx →
        s0.discords.length = s.discords.length →
        cb ∈ renderInstaller_radioOnChange s0 → SelectionInv (cb s).state)) ∧
    (∀ s, Reachable env found s → SelectionInv s) ∧
    (∀ s, SelectionInv s → s.radioIdx ≠ s.customChoiceIdx →
      ∃ d, s.discords[s.radioIdx.toNat]? = some d ∧
        getChosenInstall env s = .ok (some d) s ∧
        renderInstaller_currentDiscord s = .ok (some d) s) := by
  refine ⟨mainInit_inv found, fun s h => ⟨loop_KeyUp_inv s h, loop_KeyDown_inv s h, ?_, ?_⟩,
    fun s h => (reachable_inv env found s h).1, fun s h hne => ?_⟩
  · obtain ⟨-, hd, hc, hr⟩ := onCustomInputChanged_selection env s
    obtain ⟨h0, h1, h2⟩ := h
    refine ⟨?_, ?_, ?_⟩
    · rw [hr]
      split <;> omega
    · rw [hr, hc]
      split <;> omega
    · rw [hc, hd]
      exact h2
  · intro s0 cb hc hl hcb
    exact (radioOnChange_inv s0 s cb h hc hl hcb).2
  · obtain ⟨h0, h1, h2⟩ := h
    have hlt : s.radioIdx < (s.discords.length : Int) := by omega
    obtain ⟨d, hd, hidx⟩ := indexDiscords_run s h0 hlt
    refine ⟨d, hd, ?_, ?_⟩
    · rw [getChosenInstall_run_discovered env s hne, hidx]
    · simp [renderInstaller_currentDiscord, Gui.get, bind, Gui.bind, hne, hidx, pure, Gui.pure]

/-- C8 on the start-up state with two installs: pressing Down keeps the invariant. -/
theorem C8_selection_index_invariant_witness :
    SelectionInv sampleState ∧ SelectionInv (loop_KeyDown sampleState).state :=
  ⟨by decide,
    ((C8_selection_index_invariant sampleEnv sampleDiscords).2.1 sampleState (by decide)).2.1⟩

/-! ## OpenAsar -/

/-- C9, evaluated: with `acceptedOpenAsar` false, the custom location selected and a path
`ParseDiscord` rejects, `handleOpenAsar` obtains nil from `getChosenInstall` and calls
`IsOpenAsar` on it. -/
theorem C9_handleOpenAsar_queries_nil_install :
    SelectionInv invalidCustomState ∧
    invalidCustomState.acceptedOpenAsar = false ∧
    invalidCustomState.radioIdx = invalidCustomState.customChoiceIdx ∧
    (getChosenInstall sampleEnv invalidCustomState).val? = some none ∧
    newEvents invalidCustomState (handleOpenAsar sampleEnv invalidCustomState)
      = [.ParseDiscord "/tmp/not-discord" "", .OpenPopup "#invalid-custom-location",
          .IsOpenAsar none] := by
  refine ⟨?_, ?_, ?_, ?_, ?_⟩ <;> decide

/-! ## Auto-completion -/

theorem foldl_append_if {α : Type} (p : α → Bool) (l init : List α) :
    l.foldl (fun acc e => if p e then acc ++ [e] else acc) init = init ++ l.filter p := by
  induction l generalizing init with
  | nil => simp
  | cons x xs ih =>
    simp only [List.foldl_cons, ih, List.filter_cons]
    cases p x <;> simp

theorem HasPrefix_empty (s : String) : HasPrefix s "" = true := by
  simp [HasPrefix]

theorem ToLower_empty (f : Char → Char) : ToLower f "" = "" := rfl

/-- C10: `makeAutoComplete` returns the entries of `autoCompleteCandidates` whose lowercase
form has the lowercase `autoCompleteFile` as a prefix, in their original spelling and order
and nothing else; with an empty `autoCompleteFile` that is the whole candidate list. -/
theorem C10_makeAutoComplete_prefix_filter (env : Env) (s : GuiState) :
    makeAutoComplete env s
      = s.autoCompleteCandidates.filter (fun e =>
          HasPrefix (ToLower env.unicodeToLower e) (ToLower env.unicodeToLower s.autoCompleteFile)) ∧
    (makeAutoComplete env s).Sublist s.autoCompleteCandidates ∧
    (s.autoCompleteFile = "" → makeAutoComplete env s = s.autoCompleteCandidates) := by
  have hfilter : makeAutoComplete env s
      = s.autoCompleteCandidates.filter (fun e =>
          HasPrefix (ToLower env.unicodeToLower e)
            (ToLower env.unicodeToLower s.autoCompleteFile)) := by
    unfold makeAutoComplete
    simp only []
    rw [foldl_append_if (fun e => decide (s.autoCompleteFile = "") ||
      HasPrefix (ToLower env.unicodeToLower e) (ToLower env.unicodeToLower s.autoCompleteFile))]
    simp only [List.nil_append]
    by_cases h : s.autoCompleteFile = ""
    · simp [h, ToLower_empty, HasPrefix_empty]
    · simp [h]
  refine ⟨hfilter, ?_, ?_⟩
  · rw [hfilter]
    exact List.filter_sublist _
  · intro h
    rw [hfilter, h, ToLower_empty]
    simp [HasPrefix_empty]

/-- C10 with nothing typed after the directory: every candidate is offered. -/
theorem C10_makeAutoComplete_prefix_filter_witness :
    completionState.autoCompleteFile = "" ∧
    makeAutoComplete sampleEnv completionState = ["Discord", "discord-canary", "Documents"] :=
  ⟨rfl, (C10_makeAutoComplete_prefix_filter sampleEnv completionState).2.2 rfl⟩

end Mushcord
